import Mathlib

set_option autoImplicit false

/-!
Verification of the EE Department Management backend (src/main.py, src/schemas.py).

The document store is modelled as an association list from collection names to
collections, a collection being an association list from object identifiers to
documents.  `create_document` and `get_documents` live in `database.py`, which is
not part of the sources; they are modelled from the spec's store-adapter
contract.  Every request handler of `main.py` is embedded as a pure function
from its request data and a store to a result together with the resulting store.
-/

deriving instance DecidableEq for Except

namespace EEDept

/-- A field value of a stored document: a string, a boolean, or null
(Python `None` serialized into the store). -/
inductive Val where
  | str (s : String)
  | bool (b : Bool)
  | null
deriving DecidableEq, Repr

/-- A document is a finite map from field names to values, as an association list. -/
abbrev Doc := List (String × Val)

/-- Serialization of a Python `Optional[str]` field. -/
def optStr : Option String → Val
  | none => Val.null
  | some s => Val.str s

/-- Field lookup in a document. -/
def Doc.get : Doc → String → Option Val
  | [], _ => none
  | (k, v) :: rest, key => if k = key then some v else Doc.get rest key

/-- MongoDB `$set` on a single field: replaces the value if the field is
present, appends the field otherwise. -/
def Doc.set : Doc → String → Val → Doc
  | [], key, value => [(key, value)]
  | (k, v) :: rest, key, value =>
    if k = key then (key, value) :: rest else (k, v) :: Doc.set rest key value

/-- Hexadecimal digit test, as accepted by `bson.ObjectId`. -/
def isHexDigit (c : Char) : Bool :=
  c.isDigit || ('a' ≤ c && c ≤ 'f') || ('A' ≤ c && c ≤ 'F')

/-- `bson.ObjectId(id_str)` succeeds on a string exactly when it is a
24-character hexadecimal string. -/
def isValidObjectIdString (s : String) : Bool :=
  s.length == 24 && s.data.all isHexDigit

/-- A store-native identifier: the canonical (lowercased) 24-hex-character form. -/
structure ObjectId where
  hex : String
deriving DecidableEq, Repr

/-- The error taxonomy of the handlers, one constructor per distinct
`HTTPException` raised in `main.py`. -/
inductive AppError where
  | invalidIdentifier
  | duplicateEmail
  | referenceNotFound (entity : String)
  | invalidStatus
  | userNotFound
  | bookingNotFound
deriving DecidableEq, Repr

/-- HTTP status code carried by each error (400 or 404 in `main.py`). -/
def AppError.httpStatus : AppError → Nat
  | .userNotFound => 404
  | .bookingNotFound => 404
  | _ => 400

/-- Lowercasing of one hexadecimal digit (`bson.ObjectId` stores the binary
value, so parsing is case-insensitive; the canonical string form is
lowercase). -/
def hexCharToLower (c : Char) : Char :=
  if 'A' ≤ c && c ≤ 'F' then Char.ofNat (c.toNat + 32) else c

/-- Canonical (lowercase) form of a hexadecimal identifier string. -/
def hexToLower (s : String) : String :=
  String.mk (s.data.map hexCharToLower)

/-- `_oid` from `main.py`: parse a path- or body-supplied identifier string,
raising `Invalid id` (HTTP 400) when `ObjectId(id_str)` fails. -/
def _oid (id_str : String) : Except AppError ObjectId :=
  if isValidObjectIdString id_str then Except.ok ⟨hexToLower id_str⟩
  else Except.error AppError.invalidIdentifier

/-- A collection: documents keyed by their store identifier, in insertion order. -/
abbrev Collection := List (ObjectId × Doc)

/-- The document store: named collections plus the seed from which the next
generated identifier is drawn. -/
structure Store where
  collections : List (String × Collection)
  nextId : Nat
deriving DecidableEq, Repr

def getCollList : List (String × Collection) → String → Collection
  | [], _ => []
  | (n, c) :: rest, name => if n = name then c else getCollList rest name

/-- The documents of the named collection (empty when absent). -/
def Store.getColl (s : Store) (name : String) : Collection :=
  getCollList s.collections name

def setCollList : List (String × Collection) → String → Collection → List (String × Collection)
  | [], name, c => [(name, c)]
  | (n, c') :: rest, name, c =>
    if n = name then (name, c) :: rest else (n, c') :: setCollList rest name c

/-- Replace the contents of the named collection. -/
def Store.setColl (s : Store) (name : String) (c : Collection) : Store :=
  { s with collections := setCollList s.collections name c }

/-- MongoDB exact-match conjunction filter: every filter field must be present
in the document with exactly the given value. -/
def matchesFilter (filt : Doc) (d : Doc) : Bool :=
  filt.all fun kv => d.get kv.1 == some kv.2

def findFirst (filt : Doc) : Collection → Option (ObjectId × Doc)
  | [] => none
  | e :: rest => if matchesFilter filt e.2 then some e else findFirst filt rest

/-- `collection.find_one(filter)`: the first document matching the filter. -/
def Store.find_one (s : Store) (coll : String) (filt : Doc) : Option (ObjectId × Doc) :=
  findFirst filt (s.getColl coll)

def findByIdList (oid : ObjectId) : Collection → Option Doc
  | [] => none
  | (o, d) :: rest => if o = oid then some d else findByIdList oid rest

/-- `collection.find_one({"_id": oid})`: lookup by identifier. -/
def Store.findById (s : Store) (coll : String) (oid : ObjectId) : Option Doc :=
  findByIdList oid (s.getColl coll)

/-- The hexadecimal string form of a freshly generated identifier. -/
def natToHex24 (n : Nat) : String :=
  let ds := Nat.toDigits 16 (n % 16 ^ 24)
  String.mk (List.replicate (24 - ds.length) '0' ++ ds)

/-- Modelled from the spec: `create_document` of `database.py` (not under the
sources), per the store-adapter contract "insert(collectionName, document) ->
identifier: serializes document fields, inserts into named collection, returns
the newly generated identifier as a string". -/
def create_document (s : Store) (coll : String) (d : Doc) : String × Store :=
  let oid : ObjectId := ⟨natToHex24 s.nextId⟩
  (oid.hex,
    { s.setColl coll (s.getColl coll ++ [(oid, d)]) with nextId := s.nextId + 1 })

/-- Modelled from the spec: `get_documents` of `database.py` (not under the
sources), per the store-adapter contract "query(collectionName, filter) ->
sequence of documents: returns all documents matching an exact-match
conjunction filter; empty filter returns all documents in the collection". -/
def get_documents (s : Store) (coll : String) (filt : Doc) : List Doc :=
  ((s.getColl coll).filter fun e => matchesFilter filt e.2).map Prod.snd

def updateEntries (oid : ObjectId) (key : String) (v : Val) :
    Collection → Option Collection
  | [] => none
  | (o, d) :: rest =>
    if o = oid then some ((o, d.set key v) :: rest)
    else (updateEntries oid key v rest).map ((o, d) :: ·)

/-- `collection.update_one({"_id": oid}, {"$set": {key: v}})`: sets the field on
the first document with the given identifier; returns the matched count (0 or 1)
with the resulting store. -/
def Store.update_one (s : Store) (coll : String) (oid : ObjectId) (key : String) (v : Val) :
    Nat × Store :=
  match updateEntries oid key v (s.getColl coll) with
  | none => (0, s)
  | some c => (1, s.setColl coll c)

/-! ### Entity schemas (src/schemas.py) -/

inductive Role where
  | admin
  | teacher
  | student
deriving DecidableEq, Repr

def Role.toStr : Role → String
  | .admin => "admin"
  | .teacher => "teacher"
  | .student => "student"

inductive Day where
  | mon | tue | wed | thu | fri | sat | sun
deriving DecidableEq, Repr

def Day.toStr : Day → String
  | .mon => "Mon"
  | .tue => "Tue"
  | .wed => "Wed"
  | .thu => "Thu"
  | .fri => "Fri"
  | .sat => "Sat"
  | .sun => "Sun"

inductive Audience where
  | all | admins | teachers | students | level | section
deriving DecidableEq, Repr

def Audience.toStr : Audience → String
  | .all => "all"
  | .admins => "admins"
  | .teachers => "teachers"
  | .students => "students"
  | .level => "level"
  | .section => "section"

inductive BookingStatus where
  | pending | approved | declined
deriving DecidableEq, Repr

def BookingStatus.toStr : BookingStatus → String
  | .pending => "pending"
  | .approved => "approved"
  | .declined => "declined"

/-- `User` schema; the `:=` defaults mirror the Pydantic field defaults applied
when the request body omits the field. -/
structure User where
  full_name : String
  email : String
  password : String
  role : Role
  approved : Bool := false
  section_id : Option String := none
deriving DecidableEq, Repr

def User.toDoc (u : User) : Doc :=
  [("full_name", Val.str u.full_name), ("email", Val.str u.email),
   ("password", Val.str u.password), ("role", Val.str u.role.toStr),
   ("approved", Val.bool u.approved), ("section_id", optStr u.section_id)]

structure Level where
  name : String
  description : Option String := none
deriving DecidableEq, Repr

def Level.toDoc (l : Level) : Doc :=
  [("name", Val.str l.name), ("description", optStr l.description)]

structure Section where
  level_id : String
  name : String
deriving DecidableEq, Repr

def Section.toDoc (sec : Section) : Doc :=
  [("level_id", Val.str sec.level_id), ("name", Val.str sec.name)]

structure TimetableEntry where
  section_id : String
  day : Day
  start_time : String
  end_time : String
  room : String
  subject : String
  teacher_id : Option String := none
deriving DecidableEq, Repr

def TimetableEntry.toDoc (e : TimetableEntry) : Doc :=
  [("section_id", Val.str e.section_id), ("day", Val.str e.day.toStr),
   ("start_time", Val.str e.start_time), ("end_time", Val.str e.end_time),
   ("room", Val.str e.room), ("subject", Val.str e.subject),
   ("teacher_id", optStr e.teacher_id)]

structure Announcement where
  title : String
  body : String
  author_id : Option String := none
  audience : Audience := Audience.all
  level_id : Option String := none
  section_id : Option String := none
  pinned : Bool := false
deriving DecidableEq, Repr

def Announcement.toDoc (a : Announcement) : Doc :=
  [("title", Val.str a.title), ("body", Val.str a.body),
   ("author_id", optStr a.author_id), ("audience", Val.str a.audience.toStr),
   ("level_id", optStr a.level_id), ("section_id", optStr a.section_id),
   ("pinned", Val.bool a.pinned)]

structure Material where
  teacher_id : String
  section_id : Option String := none
  title : String
  url : String
  description : Option String := none
deriving DecidableEq, Repr

def Material.toDoc (m : Material) : Doc :=
  [("teacher_id", Val.str m.teacher_id), ("section_id", optStr m.section_id),
   ("title", Val.str m.title), ("url", Val.str m.url),
   ("description", optStr m.description)]

structure RoomBooking where
  room : String
  date : String
  start_time : String
  end_time : String
  purpose : Option String := none
  requested_by : String
  status : BookingStatus := BookingStatus.pending
deriving DecidableEq, Repr

def RoomBooking.toDoc (rb : RoomBooking) : Doc :=
  [("room", Val.str rb.room), ("date", Val.str rb.date),
   ("start_time", Val.str rb.start_time), ("end_time", Val.str rb.end_time),
   ("purpose", optStr rb.purpose), ("requested_by", Val.str rb.requested_by),
   ("status", Val.str rb.status.toStr)]

structure Attendance where
  section_id : String
  timetable_id : Option String := none
  date : String
  student_id : String
  present : Bool := true
deriving DecidableEq, Repr

def Attendance.toDoc (a : Attendance) : Doc :=
  [("section_id", Val.str a.section_id), ("timetable_id", optStr a.timetable_id),
   ("date", Val.str a.date), ("student_id", Val.str a.student_id),
   ("present", Val.bool a.present)]

/-- `IDResponse` schema: the body of every successful creation response. -/
structure IDResponse where
  id : String
deriving DecidableEq, Repr

/-- The `{"status": "ok"}` body returned by the PATCH handlers. -/
inductive OkStatus where
  | ok
deriving DecidableEq, Repr

/-! ### Request handlers (src/main.py) -/

/-- The common tail of the three PATCH handlers: raise the given not-found
error when the update matched zero documents, otherwise respond
`{"status": "ok"}`. -/
def patchResult (res : Nat × Store) (nf : AppError) :
    Except AppError OkStatus × Store :=
  if res.1 = 0 then (Except.error nf, res.2) else (Except.ok OkStatus.ok, res.2)

/-- The Python `if x: filt[field] = x` pattern on an `Optional[str]` query
parameter: an absent parameter adds no filter field, and neither does a
supplied empty string (string truthiness). -/
def optFilt (field : String) : Option String → Doc
  | some v => if v.isEmpty then [] else [(field, Val.str v)]
  | none => []

/-- The Python `if x is not None: filt[field] = x` pattern on an
`Optional[bool]` query parameter: both `true` and `false` add a filter field. -/
def boolFilt (field : String) : Option Bool → Doc
  | some b => [(field, Val.bool b)]
  | none => []

/-- `POST /auth/register`. -/
def register_user (user : User) (s : Store) : Except AppError IDResponse × Store :=
  match s.find_one "user" [("email", Val.str user.email)] with
  | some _ => (Except.error AppError.duplicateEmail, s)
  | none =>
    let r := create_document s "user" user.toDoc
    (Except.ok ⟨r.1⟩, r.2)

/-- `GET /users`.  Python `if role:` is string truthiness, so a supplied empty
string adds no filter field; `if approved is not None:` filters on both `true`
and `false`. -/
def list_users (role : Option String) (approved : Option Bool) (s : Store) : List Doc :=
  get_documents s "user" (optFilt "role" role ++ boolFilt "approved" approved)

/-- `PATCH /users/{user_id}/approve`. -/
def approve_user (user_id : String) (approved : Bool) (s : Store) :
    Except AppError OkStatus × Store :=
  match _oid user_id with
  | Except.error e => (Except.error e, s)
  | Except.ok oid =>
    patchResult (s.update_one "user" oid "approved" (Val.bool approved))
      AppError.userNotFound

/-- `POST /levels`. -/
def create_level (level : Level) (s : Store) : Except AppError IDResponse × Store :=
  let r := create_document s "level" level.toDoc
  (Except.ok ⟨r.1⟩, r.2)

/-- `GET /levels`. -/
def list_levels (s : Store) : List Doc :=
  get_documents s "level" []

/-- `POST /sections`. -/
def create_section (sec : Section) (s : Store) : Except AppError IDResponse × Store :=
  match _oid sec.level_id with
  | Except.error e => (Except.error e, s)
  | Except.ok oid =>
    match s.findById "level" oid with
    | none => (Except.error (AppError.referenceNotFound "Level"), s)
    | some _ =>
      let r := create_document s "section" sec.toDoc
      (Except.ok ⟨r.1⟩, r.2)

/-- `GET /sections`. -/
def list_sections (level_id : Option String) (s : Store) : List Doc :=
  get_documents s "section" (optFilt "level_id" level_id)

/-- `PATCH /users/{user_id}/section`. -/
def assign_section (user_id : String) (section_id : String) (s : Store) :
    Except AppError OkStatus × Store :=
  match _oid section_id with
  | Except.error e => (Except.error e, s)
  | Except.ok soid =>
    match s.findById "section" soid with
    | none => (Except.error (AppError.referenceNotFound "Section"), s)
    | some _ =>
      match _oid user_id with
      | Except.error e => (Except.error e, s)
      | Except.ok uoid =>
        patchResult (s.update_one "user" uoid "section_id" (Val.str section_id))
          AppError.userNotFound

/-- `POST /timetable`. -/
def add_timetable (entry : TimetableEntry) (s : Store) :
    Except AppError IDResponse × Store :=
  match _oid entry.section_id with
  | Except.error e => (Except.error e, s)
  | Except.ok oid =>
    match s.findById "section" oid with
    | none => (Except.error (AppError.referenceNotFound "Section"), s)
    | some _ =>
      let r := create_document s "timetableentry" entry.toDoc
      (Except.ok ⟨r.1⟩, r.2)

/-- `GET /timetable` (required `section_id`; filtered unconditionally). -/
def get_timetable (section_id : String) (s : Store) : List Doc :=
  get_documents s "timetableentry" [("section_id", Val.str section_id)]

/-- `POST /announcements`: no identifier parsing and no referential check. -/
def create_announcement (ann : Announcement) (s : Store) :
    Except AppError IDResponse × Store :=
  let r := create_document s "announcement" ann.toDoc
  (Except.ok ⟨r.1⟩, r.2)

/-- `GET /announcements`. -/
def list_announcements (audience : Option String) (level_id : Option String)
    (section_id : Option String) (s : Store) : List Doc :=
  get_documents s "announcement"
    (optFilt "audience" audience ++ optFilt "level_id" level_id ++
      optFilt "section_id" section_id)

/-- `POST /materials`: no identifier parsing and no referential check. -/
def upload_material (mat : Material) (s : Store) : Except AppError IDResponse × Store :=
  let r := create_document s "material" mat.toDoc
  (Except.ok ⟨r.1⟩, r.2)

/-- `GET /materials`. -/
def list_materials (section_id : Option String) (teacher_id : Option String)
    (s : Store) : List Doc :=
  get_documents s "material"
    (optFilt "section_id" section_id ++ optFilt "teacher_id" teacher_id)

/-- `POST /bookings`: no identifier parsing and no referential check. -/
def request_booking (rb : RoomBooking) (s : Store) : Except AppError IDResponse × Store :=
  let r := create_document s "roombooking" rb.toDoc
  (Except.ok ⟨r.1⟩, r.2)

/-- The allowed booking status values of `set_booking_status`. -/
def allowedStatuses : List String := ["pending", "approved", "declined"]

/-- `PATCH /bookings/{booking_id}/status`: membership check on the raw status
string first, then identifier parsing, then the update. -/
def set_booking_status (booking_id : String) (status_value : String) (s : Store) :
    Except AppError OkStatus × Store :=
  if !(allowedStatuses.contains status_value) then
    (Except.error AppError.invalidStatus, s)
  else
    match _oid booking_id with
    | Except.error e => (Except.error e, s)
    | Except.ok oid =>
      patchResult (s.update_one "roombooking" oid "status" (Val.str status_value))
        AppError.bookingNotFound

/-- `GET /bookings`. -/
def list_bookings (status : Option String) (s : Store) : List Doc :=
  get_documents s "roombooking" (optFilt "status" status)

/-- `POST /attendance`: no identifier parsing and no referential check. -/
def mark_attendance (a : Attendance) (s : Store) : Except AppError IDResponse × Store :=
  let r := create_document s "attendance" a.toDoc
  (Except.ok ⟨r.1⟩, r.2)

/-- `GET /attendance`. -/
def list_attendance (section_id : Option String) (student_id : Option String)
    (date : Option String) (s : Store) : List Doc :=
  get_documents s "attendance"
    (optFilt "section_id" section_id ++ optFilt "student_id" student_id ++
      optFilt "date" date)

/-- `true` on the error outcome of a handler. -/
def isErr {α : Type} : Except AppError α → Bool
  | Except.error _ => true
  | Except.ok _ => false

/-! ### Sample data used by witnesses and counterexamples -/

def emptyStore : Store := { collections := [], nextId := 0 }

def sampleUser1 : User :=
  { full_name := "A", email := "a@x.com", password := "p", role := Role.admin }

def sampleUser2 : User :=
  { full_name := "B", email := "a@x.com", password := "q", role := Role.student }

def levelOid : ObjectId := ⟨"0123456789abcdef01234567"⟩

def storeWithLevel : Store :=
  { collections :=
      [("level", [(levelOid, [("name", Val.str "L1"), ("description", Val.null)])])],
    nextId := 5 }

def sampleSection : Section := { level_id := "0123456789abcdef01234567", name := "A" }

def badSection : Section := { level_id := "aaaaaaaaaaaaaaaaaaaaaaaa", name := "B" }

def bookingOid : ObjectId := ⟨"00000000000000000000abcd"⟩

def bookingDoc : Doc :=
  [("room", Val.str "R1"), ("date", Val.str "2024-01-01"),
   ("start_time", Val.str "08:00"), ("end_time", Val.str "09:00"),
   ("purpose", Val.null), ("requested_by", Val.str "t1"),
   ("status", Val.str "declined")]

def storeWithBooking : Store :=
  { collections := [("roombooking", [(bookingOid, bookingDoc)])], nextId := 9 }

def userOid : ObjectId := ⟨"aaaa0000aaaa0000aaaa0000"⟩

def sectionOid : ObjectId := ⟨"bbbb0000bbbb0000bbbb0000"⟩

def sectionDoc : Doc :=
  [("level_id", Val.str "0123456789abcdef01234567"), ("name", Val.str "A")]

def storeUsersSections : Store :=
  { collections :=
      [("user", [(userOid, sampleUser1.toDoc)]),
       ("section", [(sectionOid, sectionDoc)])],
    nextId := 7 }

def annBad : Announcement :=
  { title := "t", body := "b", author_id := some "not-an-id",
    level_id := some "also-bad", section_id := some "xx" }

def matOid : ObjectId := ⟨"cccc0000cccc0000cccc0000"⟩

def matDoc : Doc :=
  [("teacher_id", Val.str "t1"), ("section_id", Val.str "s1"),
   ("title", Val.str "T"), ("url", Val.str "u"), ("description", Val.null)]

def storeWithMaterial : Store :=
  { collections := [("material", [(matOid, matDoc)])], nextId := 3 }


/-- A Material request body whose identifier-bearing fields are malformed
identifier strings. -/
def matBadIds : Material :=
  { teacher_id := "zz", section_id := some "zz", title := "T", url := "u" }

/-- A RoomBooking request body that omits the `status` field, so the schema
default applies. -/
def bookingNoStatus (room date st et : String) (purpose : Option String)
    (rq : String) : RoomBooking :=
  { room := room, date := date, start_time := st, end_time := et,
    purpose := purpose, requested_by := rq }

/-- An Announcement request body that omits the `audience` field. -/
def annNoAudience (t b : String) : Announcement :=
  { title := t, body := b }

/-- A User request body that omits the `approved` field. -/
def userNoApproved (fn em pw : String) (r : Role) : User :=
  { full_name := fn, email := em, password := pw, role := r }

/-- An Attendance request body that omits the `present` field. -/
def attendanceNoPresent (sid : String) (tid : Option String) (dt stid : String) :
    Attendance :=
  { section_id := sid, timetable_id := tid, date := dt, student_id := stid }

/-- The store transition of at most one logical write: the state is unchanged,
or it is the result of a single `create_document`, or of a single
`update_one`. -/
def AtMostOneWrite (s s' : Store) : Prop :=
  s' = s ∨ (∃ c d, s' = (create_document s c d).2) ∨
    (∃ c oid k v, s' = (s.update_one c oid k v).2)

/-! ### Lemmas on the store operations -/

theorem getCollList_setCollList_self (l : List (String × Collection)) (n : String)
    (c : Collection) : getCollList (setCollList l n c) n = c := by
  induction l with
  | nil => simp [setCollList, getCollList]
  | cons hd tl ih =>
    obtain ⟨k, v⟩ := hd
    by_cases h : k = n
    · simp [setCollList, getCollList, h]
    · simp [setCollList, getCollList, h, ih]

theorem getColl_setColl_self (s : Store) (n : String) (c : Collection) :
    (s.setColl n c).getColl n = c :=
  getCollList_setCollList_self s.collections n c

theorem create_document_fst (s : Store) (c : String) (d : Doc) :
    (create_document s c d).1 = natToHex24 s.nextId := rfl

theorem getColl_create_self (s : Store) (c : String) (d : Doc) :
    (create_document s c d).2.getColl c =
      s.getColl c ++ [(⟨natToHex24 s.nextId⟩, d)] := by
  simp [create_document, Store.getColl, Store.setColl, getCollList_setCollList_self]

theorem findFirst_append_none {filt : Doc} {l₁ l₂ : Collection}
    (h : findFirst filt l₁ = none) :
    findFirst filt (l₁ ++ l₂) = findFirst filt l₂ := by
  induction l₁ with
  | nil => simp
  | cons e rest ih =>
    by_cases hm : matchesFilter filt e.2
    · simp [findFirst, hm] at h
    · simp [findFirst, hm] at h ⊢
      exact ih h

theorem updateEntries_none_iff (oid : ObjectId) (k : String) (v : Val)
    (c : Collection) : updateEntries oid k v c = none ↔ findByIdList oid c = none := by
  induction c with
  | nil => simp [updateEntries, findByIdList]
  | cons e rest ih =>
    obtain ⟨o, d⟩ := e
    by_cases h : o = oid
    · simp [updateEntries, findByIdList, h]
    · simp [updateEntries, findByIdList, h, Option.map_eq_none', ih]

theorem updateEntries_some_find {oid : ObjectId} {k : String} {v : Val} :
    ∀ {c c' : Collection}, updateEntries oid k v c = some c' →
      ∃ d, findByIdList oid c = some d ∧ findByIdList oid c' = some (d.set k v) := by
  intro c
  induction c with
  | nil => intro c' h; simp [updateEntries] at h
  | cons e rest ih =>
    intro c' h
    obtain ⟨o, d⟩ := e
    by_cases ho : o = oid
    · subst ho
      simp [updateEntries] at h
      exact ⟨d, by simp [findByIdList], by simp [← h, findByIdList]⟩
    · simp [updateEntries, ho, Option.map_eq_some'] at h
      obtain ⟨c'', hc'', rfl⟩ := h
      obtain ⟨d₀, hf, hf'⟩ := ih hc''
      exact ⟨d₀, by simp [findByIdList, ho, hf], by simp [findByIdList, ho, hf']⟩

theorem update_one_of_findById_none {s : Store} {c : String} {oid : ObjectId}
    {k : String} {v : Val} (h : s.findById c oid = none) :
    s.update_one c oid k v = (0, s) := by
  have hu : updateEntries oid k v (s.getColl c) = none :=
    (updateEntries_none_iff oid k v (s.getColl c)).mpr h
  simp [Store.update_one, hu]

theorem update_one_fst_zero {s : Store} {c : String} {oid : ObjectId}
    {k : String} {v : Val} (h : (s.update_one c oid k v).1 = 0) :
    (s.update_one c oid k v).2 = s := by
  cases hu : updateEntries oid k v (s.getColl c) with
  | none => simp [Store.update_one, hu]
  | some c' =>
    rw [Store.update_one] at h
    simp [hu] at h

theorem update_one_of_findById_some {s : Store} {c : String} {oid : ObjectId}
    {k : String} {v : Val} {d : Doc} (h : s.findById c oid = some d) :
    (s.update_one c oid k v).1 = 1 ∧
      (s.update_one c oid k v).2.findById c oid = some (d.set k v) := by
  cases hu : updateEntries oid k v (s.getColl c) with
  | none =>
    rw [updateEntries_none_iff] at hu
    rw [Store.findById] at h
    rw [hu] at h
    exact absurd h (by simp)
  | some c' =>
    obtain ⟨d₀, hf, hf'⟩ := updateEntries_some_find hu
    have hd : d₀ = d := by
      rw [Store.findById] at h
      rw [hf] at h
      exact Option.some.inj h
    subst hd
    refine ⟨by simp [Store.update_one, hu], ?_⟩
    simp only [Store.update_one, hu]
    rw [Store.findById, getColl_setColl_self]
    exact hf'

theorem patchResult_zero {res : Nat × Store} {nf : AppError} (h : res.1 = 0) :
    patchResult res nf = (Except.error nf, res.2) := by
  unfold patchResult
  rw [h]
  exact if_pos rfl

theorem patchResult_one {res : Nat × Store} {nf : AppError} (h : res.1 = 1) :
    patchResult res nf = (Except.ok OkStatus.ok, res.2) := by
  unfold patchResult
  rw [h]
  exact if_neg (by decide)

theorem patchResult_snd (res : Nat × Store) (nf : AppError) :
    (patchResult res nf).2 = res.2 := by
  unfold patchResult
  by_cases h : res.1 = 0
  · rw [if_pos h]
  · rw [if_neg h]

theorem patchResult_err (res : Nat × Store) (nf : AppError)
    (h : isErr (patchResult res nf).1 = true) : res.1 = 0 := by
  by_cases h0 : res.1 = 0
  · exact h0
  · exfalso
    unfold patchResult at h
    rw [if_neg h0] at h
    exact Bool.noConfusion h

theorem patch_step (s : Store) (c : String) (oid : ObjectId) (k : String)
    (v : Val) (nf : AppError) :
    (isErr (patchResult (s.update_one c oid k v) nf).1 = true →
      (patchResult (s.update_one c oid k v) nf).2 = s) ∧
    AtMostOneWrite s (patchResult (s.update_one c oid k v) nf).2 := by
  constructor
  · intro h
    rw [patchResult_snd]
    exact update_one_fst_zero (patchResult_err _ _ h)
  · rw [patchResult_snd]
    exact Or.inr (Or.inr ⟨c, oid, k, v, rfl⟩)

theorem Doc.get_set_self (d : Doc) (k : String) (v : Val) :
    (d.set k v).get k = some v := by
  induction d with
  | nil => simp [Doc.set, Doc.get]
  | cons e rest ih =>
    obtain ⟨k', v'⟩ := e
    by_cases h : k' = k
    · simp [Doc.set, Doc.get, h]
    · simp [Doc.set, Doc.get, h, ih]

theorem matchesFilter_nil (d : Doc) : matchesFilter [] d = true := rfl

theorem matchesFilter_cons (kv : String × Val) (t : Doc) (d : Doc) :
    matchesFilter (kv :: t) d = ((d.get kv.1 == some kv.2) && matchesFilter t d) := by
  simp [matchesFilter]

theorem mem_get_documents {s : Store} {c : String} {filt : Doc} {d : Doc} :
    d ∈ get_documents s c filt ↔
      (∃ oid, (oid, d) ∈ s.getColl c) ∧ matchesFilter filt d = true := by
  simp only [get_documents, List.mem_map, List.mem_filter]
  constructor
  · rintro ⟨⟨oid, d'⟩, ⟨hm, hf⟩, rfl⟩
    exact ⟨⟨oid, hm⟩, hf⟩
  · rintro ⟨⟨oid, hm⟩, hf⟩
    exact ⟨(oid, d), ⟨hm, hf⟩, rfl⟩

theorem User.toDoc_get_email (u : User) :
    u.toDoc.get "email" = some (Val.str u.email) := by
  simp [User.toDoc, Doc.get]

theorem Section.toDoc_get_level_id (sec : Section) :
    sec.toDoc.get "level_id" = some (Val.str sec.level_id) := by
  simp [Section.toDoc, Doc.get]

theorem matchesFilter_email_toDoc (u : User) :
    matchesFilter [("email", Val.str u.email)] u.toDoc = true := by
  simp [matchesFilter_cons, matchesFilter_nil, User.toDoc_get_email]

theorem matchesFilter_append (f₁ f₂ : Doc) (d : Doc) :
    matchesFilter (f₁ ++ f₂) d = (matchesFilter f₁ d && matchesFilter f₂ d) := by
  simp [matchesFilter, List.all_append]

theorem optFilt_matches (field : String) (o : Option String) (d : Doc) :
    matchesFilter (optFilt field o) d = true ↔
      ∀ v, o = some v → v.isEmpty = false → d.get field = some (Val.str v) := by
  cases o with
  | none => simp [optFilt, matchesFilter_nil]
  | some v =>
    by_cases hv : v.isEmpty = true
    · simp [optFilt, hv, matchesFilter_nil]
    · simp [optFilt, hv, matchesFilter_cons, matchesFilter_nil]

theorem boolFilt_matches (field : String) (o : Option Bool) (d : Doc) :
    matchesFilter (boolFilt field o) d = true ↔
      ∀ b, o = some b → d.get field = some (Val.bool b) := by
  cases o with
  | none => simp [boolFilt, matchesFilter_nil]
  | some b => simp [boolFilt, matchesFilter_cons, matchesFilter_nil]

/-! ### Claim theorems -/

/-- C1: registering two users with identical email sequentially makes the second
call fail with `DuplicateEmail`, the duplicate test being a case-sensitive exact
match against the User documents present at call time; when no User with that
email exists, registration succeeds and inserts exactly one new User document. -/
theorem C1_register_user_duplicate_email (u₁ u₂ : User) (s : Store) :
    (s.find_one "user" [("email", Val.str u₁.email)] = none →
      (register_user u₁ s).1 = Except.ok ⟨natToHex24 s.nextId⟩ ∧
      (register_user u₁ s).2.getColl "user" =
        s.getColl "user" ++ [(⟨natToHex24 s.nextId⟩, u₁.toDoc)]) ∧
    (u₂.email = u₁.email → isErr (register_user u₁ s).1 = false →
      (register_user u₂ (register_user u₁ s).2).1 =
        Except.error AppError.duplicateEmail) := by
  constructor
  · intro h
    simp only [register_user, h]
    exact ⟨rfl, getColl_create_self s "user" u₁.toDoc⟩
  · intro hmail herr
    cases hfo : s.find_one "user" [("email", Val.str u₁.email)] with
    | some e =>
      simp only [register_user, hfo, isErr] at herr
      exact Bool.noConfusion herr
    | none =>
      have hs2 : (register_user u₁ s).2 = (create_document s "user" u₁.toDoc).2 := by
        simp only [register_user, hfo]
      have hfind : (register_user u₁ s).2.find_one "user"
          [("email", Val.str u₁.email)] = some (⟨natToHex24 s.nextId⟩, u₁.toDoc) := by
        rw [hs2, Store.find_one, getColl_create_self, findFirst_append_none hfo]
        simp [findFirst, matchesFilter_email_toDoc u₁]
      set s' := (register_user u₁ s).2 with hs'
      simp only [register_user, hmail, hfind]

/-- C1 witness: on the empty store the first registration succeeds and a second
registration with the same email fails with `DuplicateEmail`. -/
theorem C1_witness :
    (register_user sampleUser1 emptyStore).1 = Except.ok ⟨natToHex24 0⟩ ∧
    (register_user sampleUser2 (register_user sampleUser1 emptyStore).2).1 =
      Except.error AppError.duplicateEmail := by
  refine ⟨((C1_register_user_duplicate_email sampleUser1 sampleUser2 emptyStore).1
    (by decide)).1, ?_⟩
  exact (C1_register_user_duplicate_email sampleUser1 sampleUser2 emptyStore).2
    (by decide) (by decide)

/-- C2: `create_section` with a well-formed `level_id` that matches no Level
document fails with `ReferenceNotFound` and inserts nothing; with one that
matches, it succeeds and the stored Section document's `level_id` field equals
the supplied string. -/
theorem C2_create_section_reference (sec : Section) (s : Store)
    (hv : isValidObjectIdString sec.level_id = true) :
    (s.findById "level" ⟨hexToLower sec.level_id⟩ = none →
      create_section sec s = (Except.error (AppError.referenceNotFound "Level"), s)) ∧
    ((s.findById "level" ⟨hexToLower sec.level_id⟩).isSome = true →
      (create_section sec s).1 = Except.ok ⟨natToHex24 s.nextId⟩ ∧
      (create_section sec s).2.getColl "section" =
        s.getColl "section" ++ [(⟨natToHex24 s.nextId⟩, sec.toDoc)] ∧
      sec.toDoc.get "level_id" = some (Val.str sec.level_id)) := by
  have hoid : _oid sec.level_id = Except.ok ⟨hexToLower sec.level_id⟩ := by
    simp [_oid, hv]
  constructor
  · intro h
    simp only [create_section, hoid, h]
  · intro h
    obtain ⟨d, hd⟩ := Option.isSome_iff_exists.mp h
    simp only [create_section, hoid, hd]
    exact ⟨rfl, getColl_create_self s "section" sec.toDoc, Section.toDoc_get_level_id sec⟩

/-- C2 witness: against a store holding one Level, a section referencing a
missing level fails with `ReferenceNotFound` and a section referencing the
existing level succeeds. -/
theorem C2_witness :
    create_section badSection storeWithLevel =
      (Except.error (AppError.referenceNotFound "Level"), storeWithLevel) ∧
    (create_section sampleSection storeWithLevel).1 = Except.ok ⟨natToHex24 5⟩ := by
  constructor
  · exact (C2_create_section_reference badSection storeWithLevel (by decide)).1 (by decide)
  · exact ((C2_create_section_reference sampleSection storeWithLevel (by decide)).2
      (by decide)).1

/-- C3: `set_booking_status` fails with `InvalidStatus` when the requested
status is outside {pending, approved, declined} (in particular for
"cancelled"); otherwise, on a well-formed identifier, it fails with
`BookingNotFound` when no booking matches, and when one matches it sets the
status field to the requested value with no restriction on which status may
follow which. -/
theorem C3_set_booking_status_behaviour (booking_id status_value : String) (s : Store) :
    (allowedStatuses.contains status_value = false →
      set_booking_status booking_id status_value s =
        (Except.error AppError.invalidStatus, s)) ∧
    (set_booking_status booking_id "cancelled" s =
      (Except.error AppError.invalidStatus, s)) ∧
    (allowedStatuses.contains status_value = true →
      isValidObjectIdString booking_id = true →
      (s.findById "roombooking" ⟨hexToLower booking_id⟩ = none →
        set_booking_status booking_id status_value s =
          (Except.error AppError.bookingNotFound, s)) ∧
      (∀ d, s.findById "roombooking" ⟨hexToLower booking_id⟩ = some d →
        (set_booking_status booking_id status_value s).1 = Except.ok OkStatus.ok ∧
        (set_booking_status booking_id status_value s).2.findById "roombooking"
            ⟨hexToLower booking_id⟩ = some (d.set "status" (Val.str status_value)) ∧
        (d.set "status" (Val.str status_value)).get "status" =
          some (Val.str status_value))) := by
  have hcan : allowedStatuses.contains "cancelled" = false := by decide
  refine ⟨?_, ?_, ?_⟩
  · intro hc
    unfold set_booking_status
    rw [hc]
    exact if_pos rfl
  · unfold set_booking_status
    rw [hcan]
    exact if_pos rfl
  · intro hc hv
    have hoid : _oid booking_id = Except.ok ⟨hexToLower booking_id⟩ := by
      simp [_oid, hv]
    constructor
    · intro hnone
      unfold set_booking_status
      rw [hc, hoid]
      show patchResult (s.update_one "roombooking" ⟨hexToLower booking_id⟩ "status"
        (Val.str status_value)) AppError.bookingNotFound =
          (Except.error AppError.bookingNotFound, s)
      rw [update_one_of_findById_none hnone]
      exact patchResult_zero rfl
    · intro d hd
      obtain ⟨h1, h2⟩ :=
        update_one_of_findById_some (k := "status") (v := Val.str status_value) hd
      refine ⟨?_, ?_, Doc.get_set_self d "status" (Val.str status_value)⟩
      · unfold set_booking_status
        rw [hc, hoid]
        show (patchResult (s.update_one "roombooking" ⟨hexToLower booking_id⟩ "status"
          (Val.str status_value)) AppError.bookingNotFound).1 = Except.ok OkStatus.ok
        rw [patchResult_one h1]
      · unfold set_booking_status
        rw [hc, hoid]
        show (patchResult (s.update_one "roombooking" ⟨hexToLower booking_id⟩ "status"
          (Val.str status_value)) AppError.bookingNotFound).2.findById "roombooking"
            ⟨hexToLower booking_id⟩ = some (d.set "status" (Val.str status_value))
        rw [patchResult_one h1]
        exact h2

/-- C3 witness: on a store with one declined booking, "cancelled" is rejected
with `InvalidStatus`, approving the existing booking succeeds, and a
well-formed but unmatched identifier yields `BookingNotFound`. -/
theorem C3_witness :
    set_booking_status "00000000000000000000abcd" "cancelled" storeWithBooking =
      (Except.error AppError.invalidStatus, storeWithBooking) ∧
    (set_booking_status "00000000000000000000abcd" "approved" storeWithBooking).1 =
      Except.ok OkStatus.ok ∧
    set_booking_status "ffffffffffffffffffffffff" "approved" storeWithBooking =
      (Except.error AppError.bookingNotFound, storeWithBooking) := by
  refine ⟨(C3_set_booking_status_behaviour "00000000000000000000abcd" "cancelled"
    storeWithBooking).2.1, ?_, ?_⟩
  · exact (((C3_set_booking_status_behaviour "00000000000000000000abcd" "approved"
      storeWithBooking).2.2 (by decide) (by decide)).2 bookingDoc (by decide)).1
  · exact ((C3_set_booking_status_behaviour "ffffffffffffffffffffffff" "approved"
      storeWithBooking).2.2 (by decide) (by decide)).1 (by decide)

/-- C10: the status-membership check of `set_booking_status` runs before the
identifier is parsed or looked up: an out-of-set status fails with
`InvalidStatus` regardless of the booking identifier, and `InvalidIdentifier`
or `BookingNotFound` can only be reported when the status is in the allowed
set. -/
theorem C10_status_checked_before_identifier (booking_id status_value : String)
    (s : Store) :
    (allowedStatuses.contains status_value = false →
      set_booking_status booking_id status_value s =
        (Except.error AppError.invalidStatus, s)) ∧
    (∀ e, (set_booking_status booking_id status_value s).1 = Except.error e →
      (e = AppError.invalidIdentifier ∨ e = AppError.bookingNotFound) →
      allowedStatuses.contains status_value = true) := by
  constructor
  · intro hc
    unfold set_booking_status
    rw [hc]
    exact if_pos rfl
  · intro e he hor
    cases hc : allowedStatuses.contains status_value with
    | true => rfl
    | false =>
      rw [show set_booking_status booking_id status_value s =
          (Except.error AppError.invalidStatus, s) from by
        unfold set_booking_status
        rw [hc]
        exact if_pos rfl] at he
      have : AppError.invalidStatus = e := Except.error.inj he
      rcases hor with h | h <;> rw [h] at this <;> exact absurd this (by decide)

/-- C10 witness: a malformed booking identifier with status "cancelled" still
fails with `InvalidStatus`, and an `InvalidIdentifier` outcome implies the
status was in the allowed set. -/
theorem C10_witness :
    set_booking_status "zz" "cancelled" emptyStore =
      (Except.error AppError.invalidStatus, emptyStore) ∧
    allowedStatuses.contains "approved" = true := by
  refine ⟨(C10_status_checked_before_identifier "zz" "cancelled" emptyStore).1
    (by decide), ?_⟩
  exact (C10_status_checked_before_identifier "zz" "approved" emptyStore).2
    AppError.invalidIdentifier (by decide) (Or.inl rfl)

/-- C6: `approve_user` and `assign_section` on a syntactically valid user
identifier matching zero User documents fail with `UserNotFound` (HTTP 404)
leaving the store unchanged; on a match, the targeted field (`approved` or
`section_id`) is set and the call succeeds. -/
theorem C6_user_not_found_matched_count (user_id : String) (s : Store)
    (hv : isValidObjectIdString user_id = true) :
    (s.findById "user" ⟨hexToLower user_id⟩ = none →
      (∀ ap, approve_user user_id ap s = (Except.error AppError.userNotFound, s)) ∧
      (∀ sid, isValidObjectIdString sid = true →
        (s.findById "section" ⟨hexToLower sid⟩).isSome = true →
        assign_section user_id sid s = (Except.error AppError.userNotFound, s))) ∧
    (∀ d, s.findById "user" ⟨hexToLower user_id⟩ = some d →
      (∀ ap, (approve_user user_id ap s).1 = Except.ok OkStatus.ok ∧
        (approve_user user_id ap s).2.findById "user" ⟨hexToLower user_id⟩ =
          some (d.set "approved" (Val.bool ap))) ∧
      (∀ sid, isValidObjectIdString sid = true →
        (s.findById "section" ⟨hexToLower sid⟩).isSome = true →
        (assign_section user_id sid s).1 = Except.ok OkStatus.ok ∧
        (assign_section user_id sid s).2.findById "user" ⟨hexToLower user_id⟩ =
          some (d.set "section_id" (Val.str sid)))) := by
  have huoid : _oid user_id = Except.ok ⟨hexToLower user_id⟩ := by
    simp [_oid, hv]
  constructor
  · intro hnone
    constructor
    · intro ap
      simp only [approve_user, huoid]
      rw [update_one_of_findById_none hnone]
      exact patchResult_zero rfl
    · intro sid hsv hsec
      have hsoid : _oid sid = Except.ok ⟨hexToLower sid⟩ := by simp [_oid, hsv]
      obtain ⟨dsec, hdsec⟩ := Option.isSome_iff_exists.mp hsec
      simp only [assign_section, hsoid, hdsec, huoid]
      rw [update_one_of_findById_none hnone]
      exact patchResult_zero rfl
  · intro d hd
    constructor
    · intro ap
      obtain ⟨h1, h2⟩ :=
        update_one_of_findById_some (k := "approved") (v := Val.bool ap) hd
      constructor
      · simp only [approve_user, huoid]
        rw [patchResult_one h1]
      · simp only [approve_user, huoid]
        rw [patchResult_one h1]
        exact h2
    · intro sid hsv hsec
      have hsoid : _oid sid = Except.ok ⟨hexToLower sid⟩ := by simp [_oid, hsv]
      obtain ⟨dsec, hdsec⟩ := Option.isSome_iff_exists.mp hsec
      obtain ⟨h1, h2⟩ :=
        update_one_of_findById_some (k := "section_id") (v := Val.str sid) hd
      constructor
      · simp only [assign_section, hsoid, hdsec, huoid]
        rw [patchResult_one h1]
      · simp only [assign_section, hsoid, hdsec, huoid]
        rw [patchResult_one h1]
        exact h2

/-- C6 witness: on a store with one user and one section, a well-formed but
unassigned user identifier yields `UserNotFound` for both PATCH endpoints,
while the stored user's identifier succeeds for both. -/
theorem C6_witness :
    approve_user "ffffffffffffffffffffffff" true storeUsersSections =
      (Except.error AppError.userNotFound, storeUsersSections) ∧
    (approve_user "aaaa0000aaaa0000aaaa0000" true storeUsersSections).1 =
      Except.ok OkStatus.ok ∧
    assign_section "ffffffffffffffffffffffff" "bbbb0000bbbb0000bbbb0000"
        storeUsersSections =
      (Except.error AppError.userNotFound, storeUsersSections) ∧
    (assign_section "aaaa0000aaaa0000aaaa0000" "bbbb0000bbbb0000bbbb0000"
        storeUsersSections).1 = Except.ok OkStatus.ok := by
  refine ⟨?_, ?_, ?_, ?_⟩
  · exact ((C6_user_not_found_matched_count "ffffffffffffffffffffffff"
      storeUsersSections (by decide)).1 (by decide)).1 true
  · exact (((C6_user_not_found_matched_count "aaaa0000aaaa0000aaaa0000"
      storeUsersSections (by decide)).2 sampleUser1.toDoc (by decide)).1 true).1
  · exact ((C6_user_not_found_matched_count "ffffffffffffffffffffffff"
      storeUsersSections (by decide)).1 (by decide)).2 "bbbb0000bbbb0000bbbb0000"
      (by decide) (by decide)
  · exact (((C6_user_not_found_matched_count "aaaa0000aaaa0000aaaa0000"
      storeUsersSections (by decide)).2 sampleUser1.toDoc (by decide)).2
      "bbbb0000bbbb0000bbbb0000" (by decide) (by decide)).1

/-- C5 counterexample: `create_announcement` accepts a request body whose
identifier-bearing fields (`author_id`, `level_id`, `section_id`) are all
malformed identifier strings and succeeds without ever raising
`InvalidIdentifier`, so not every body-supplied identifier is routed through
identifier parsing. -/
theorem C5_counterexample :
    isValidObjectIdString "not-an-id" = false ∧
    (create_announcement annBad emptyStore).1 = Except.ok ⟨natToHex24 0⟩ := by
  decide

/-- C5 amended: the path-supplied identifiers (the `user_id` of the two user
PATCH endpoints and the `booking_id` of the booking PATCH endpoint) and the
body-supplied identifiers that feed a referential lookup or update
(`Section.level_id`, `TimetableEntry.section_id`, the `section_id` body field
of `assign_section`) are routed through identifier parsing and fail with
`InvalidIdentifier` (HTTP 400) on a malformed string before any lookup or
update; the remaining identifier-bearing body fields (`User.section_id`,
`Announcement.author_id`/`level_id`/`section_id`, `Material.teacher_id` and
`Material.section_id`, `RoomBooking.requested_by`,
`Attendance.section_id`/`timetable_id`/`student_id`, and
`TimetableEntry.teacher_id`) are stored without identifier parsing. -/
theorem C5_parsed_identifier_routes (b : String)
    (hb : isValidObjectIdString b = false) (s : Store) :
    (∀ ap, approve_user b ap s = (Except.error AppError.invalidIdentifier, s)) ∧
    (∀ sid, isValidObjectIdString sid = true →
      (s.findById "section" ⟨hexToLower sid⟩).isSome = true →
      assign_section b sid s = (Except.error AppError.invalidIdentifier, s)) ∧
    (∀ sv, allowedStatuses.contains sv = true →
      set_booking_status b sv s = (Except.error AppError.invalidIdentifier, s)) ∧
    (∀ sec : Section, sec.level_id = b →
      create_section sec s = (Except.error AppError.invalidIdentifier, s)) ∧
    (∀ e : TimetableEntry, e.section_id = b →
      add_timetable e s = (Except.error AppError.invalidIdentifier, s)) ∧
    (∀ uid, assign_section uid b s = (Except.error AppError.invalidIdentifier, s)) ∧
    (∀ u : User, u.section_id = some b →
      s.find_one "user" [("email", Val.str u.email)] = none →
      (register_user u s).1 = Except.ok ⟨natToHex24 s.nextId⟩ ∧
      (register_user u s).2.getColl "user" =
        s.getColl "user" ++ [(⟨natToHex24 s.nextId⟩, u.toDoc)] ∧
      u.toDoc.get "section_id" = some (Val.str b)) ∧
    (∀ a : Announcement, a.author_id = some b → a.level_id = some b →
      a.section_id = some b →
      (create_announcement a s).1 = Except.ok ⟨natToHex24 s.nextId⟩ ∧
      (create_announcement a s).2.getColl "announcement" =
        s.getColl "announcement" ++ [(⟨natToHex24 s.nextId⟩, a.toDoc)] ∧
      a.toDoc.get "author_id" = some (Val.str b) ∧
      a.toDoc.get "level_id" = some (Val.str b) ∧
      a.toDoc.get "section_id" = some (Val.str b)) ∧
    (∀ m : Material, m.teacher_id = b → m.section_id = some b →
      (upload_material m s).1 = Except.ok ⟨natToHex24 s.nextId⟩ ∧
      (upload_material m s).2.getColl "material" =
        s.getColl "material" ++ [(⟨natToHex24 s.nextId⟩, m.toDoc)] ∧
      m.toDoc.get "teacher_id" = some (Val.str b) ∧
      m.toDoc.get "section_id" = some (Val.str b)) ∧
    (∀ rb : RoomBooking, rb.requested_by = b →
      (request_booking rb s).1 = Except.ok ⟨natToHex24 s.nextId⟩ ∧
      (request_booking rb s).2.getColl "roombooking" =
        s.getColl "roombooking" ++ [(⟨natToHex24 s.nextId⟩, rb.toDoc)] ∧
      rb.toDoc.get "requested_by" = some (Val.str b)) ∧
    (∀ a : Attendance, a.section_id = b → a.timetable_id = some b →
      a.student_id = b →
      (mark_attendance a s).1 = Except.ok ⟨natToHex24 s.nextId⟩ ∧
      (mark_attendance a s).2.getColl "attendance" =
        s.getColl "attendance" ++ [(⟨natToHex24 s.nextId⟩, a.toDoc)] ∧
      a.toDoc.get "section_id" = some (Val.str b) ∧
      a.toDoc.get "timetable_id" = some (Val.str b) ∧
      a.toDoc.get "student_id" = some (Val.str b)) ∧
    (∀ e : TimetableEntry, e.teacher_id = some b →
      isValidObjectIdString e.section_id = true →
      (s.findById "section" ⟨hexToLower e.section_id⟩).isSome = true →
      (add_timetable e s).1 = Except.ok ⟨natToHex24 s.nextId⟩ ∧
      (add_timetable e s).2.getColl "timetableentry" =
        s.getColl "timetableentry" ++ [(⟨natToHex24 s.nextId⟩, e.toDoc)] ∧
      e.toDoc.get "teacher_id" = some (Val.str b)) := by
  have hboid : _oid b = Except.error AppError.invalidIdentifier := by
    simp [_oid, hb]
  refine ⟨?_, ?_, ?_, ?_, ?_, ?_, ?_, ?_, ?_, ?_, ?_, ?_⟩
  · intro ap
    simp only [approve_user, hboid]
  · intro sid hsv hsec
    have hsoid : _oid sid = Except.ok ⟨hexToLower sid⟩ := by simp [_oid, hsv]
    obtain ⟨dsec, hdsec⟩ := Option.isSome_iff_exists.mp hsec
    simp only [assign_section, hsoid, hdsec, hboid]
  · intro sv hsv
    unfold set_booking_status
    rw [hsv]
    simp only [hboid]
    exact if_neg (by decide)
  · intro sec hsec
    simp only [create_section, hsec, hboid]
  · intro e he
    simp only [add_timetable, he, hboid]
  · intro uid
    simp only [assign_section, hboid]
  · intro u hsid hfo
    have h1 : (register_user u s).1 = Except.ok ⟨natToHex24 s.nextId⟩ := by
      simp only [register_user, hfo, create_document_fst]
    have h2 : (register_user u s).2 = (create_document s "user" u.toDoc).2 := by
      simp only [register_user, hfo]
    refine ⟨h1, ?_, ?_⟩
    · rw [h2]
      exact getColl_create_self s "user" u.toDoc
    · simp [User.toDoc, Doc.get, optStr, hsid]
  · intro a h1 h2 h3
    refine ⟨rfl, getColl_create_self s "announcement" a.toDoc, ?_, ?_, ?_⟩ <;>
      simp [Announcement.toDoc, Doc.get, optStr, h1, h2, h3]
  · intro m h1 h2
    refine ⟨rfl, getColl_create_self s "material" m.toDoc, ?_, ?_⟩ <;>
      simp [Material.toDoc, Doc.get, optStr, h1, h2]
  · intro rb h1
    refine ⟨rfl, getColl_create_self s "roombooking" rb.toDoc, ?_⟩
    simp [RoomBooking.toDoc, Doc.get, h1]
  · intro a h1 h2 h3
    refine ⟨rfl, getColl_create_self s "attendance" a.toDoc, ?_, ?_, ?_⟩ <;>
      simp [Attendance.toDoc, Doc.get, optStr, h1, h2, h3]
  · intro e ht hsv hsec
    have hsoid : _oid e.section_id = Except.ok ⟨hexToLower e.section_id⟩ := by
      simp [_oid, hsv]
    obtain ⟨dsec, hdsec⟩ := Option.isSome_iff_exists.mp hsec
    have h1 : (add_timetable e s).1 = Except.ok ⟨natToHex24 s.nextId⟩ := by
      simp only [add_timetable, hsoid, hdsec, create_document_fst]
    have h2 : (add_timetable e s).2 =
        (create_document s "timetableentry" e.toDoc).2 := by
      simp only [add_timetable, hsoid, hdsec]
    refine ⟨h1, ?_, ?_⟩
    · rw [h2]
      exact getColl_create_self s "timetableentry" e.toDoc
    · simp [TimetableEntry.toDoc, Doc.get, optStr, ht]

/-- C5 witness: concrete malformed-identifier rejections for the parsed
routes (including `assign_section`'s path-supplied user id against an
existing section) and an accepted unparsed body field. -/
theorem C5_witness :
    approve_user "zz" true emptyStore =
      (Except.error AppError.invalidIdentifier, emptyStore) ∧
    assign_section "zz" "bbbb0000bbbb0000bbbb0000" storeUsersSections =
      (Except.error AppError.invalidIdentifier, storeUsersSections) ∧
    assign_section "aaaa0000aaaa0000aaaa0000" "zz" emptyStore =
      (Except.error AppError.invalidIdentifier, emptyStore) ∧
    (upload_material matBadIds emptyStore).1 = Except.ok ⟨natToHex24 0⟩ := by
  refine ⟨?_, ?_, ?_, ?_⟩
  · exact (C5_parsed_identifier_routes "zz" (by decide) emptyStore).1 true
  · exact (C5_parsed_identifier_routes "zz" (by decide) storeUsersSections).2.1
      "bbbb0000bbbb0000bbbb0000" (by decide) (by decide)
  · exact (C5_parsed_identifier_routes "zz" (by decide) emptyStore).2.2.2.2.2.1
      "aaaa0000aaaa0000aaaa0000"
  · have h := (C5_parsed_identifier_routes "zz" (by decide)
      emptyStore).2.2.2.2.2.2.2.2.1 matBadIds rfl rfl
    exact h.1

/-- C4 counterexample: `list_materials` with a supplied `section_id` of `""`
(the empty string is a present query parameter) returns a document whose
`section_id` field is not `""`, so a present parameter does not always narrow
the result to documents whose field equals that value. -/
theorem C4_counterexample :
    matDoc ∈ list_materials (some "") none storeWithMaterial ∧
    matDoc.get "section_id" ≠ some (Val.str "") := by
  decide

/-- C4 amended: for every list endpoint, the filter is an exact-match
conjunction over the supplied non-empty string parameters (and, for
`list_users`, the `approved` boolean whenever present, including `false`);
an absent parameter, and likewise a supplied empty-string parameter (string
truthiness in the handlers), imposes no constraint. -/
theorem C4_list_filters_conjunctive (s : Store) (d : Doc) :
    (∀ sec tea : Option String,
      (d ∈ list_materials sec tea s ↔
        (∃ oid, (oid, d) ∈ s.getColl "material") ∧
        (∀ v, sec = some v → v.isEmpty = false →
          d.get "section_id" = some (Val.str v)) ∧
        (∀ v, tea = some v → v.isEmpty = false →
          d.get "teacher_id" = some (Val.str v)))) ∧
    (∀ (role : Option String) (approved : Option Bool),
      (d ∈ list_users role approved s ↔
        (∃ oid, (oid, d) ∈ s.getColl "user") ∧
        (∀ v, role = some v → v.isEmpty = false →
          d.get "role" = some (Val.str v)) ∧
        (∀ b, approved = some b → d.get "approved" = some (Val.bool b)))) ∧
    (∀ lid : Option String,
      (d ∈ list_sections lid s ↔
        (∃ oid, (oid, d) ∈ s.getColl "section") ∧
        (∀ v, lid = some v → v.isEmpty = false →
          d.get "level_id" = some (Val.str v)))) ∧
    (∀ au lid sid : Option String,
      (d ∈ list_announcements au lid sid s ↔
        (∃ oid, (oid, d) ∈ s.getColl "announcement") ∧
        (∀ v, au = some v → v.isEmpty = false →
          d.get "audience" = some (Val.str v)) ∧
        (∀ v, lid = some v → v.isEmpty = false →
          d.get "level_id" = some (Val.str v)) ∧
        (∀ v, sid = some v → v.isEmpty = false →
          d.get "section_id" = some (Val.str v)))) ∧
    (∀ st : Option String,
      (d ∈ list_bookings st s ↔
        (∃ oid, (oid, d) ∈ s.getColl "roombooking") ∧
        (∀ v, st = some v → v.isEmpty = false →
          d.get "status" = some (Val.str v)))) ∧
    (∀ sid stid dt : Option String,
      (d ∈ list_attendance sid stid dt s ↔
        (∃ oid, (oid, d) ∈ s.getColl "attendance") ∧
        (∀ v, sid = some v → v.isEmpty = false →
          d.get "section_id" = some (Val.str v)) ∧
        (∀ v, stid = some v → v.isEmpty = false →
          d.get "student_id" = some (Val.str v)) ∧
        (∀ v, dt = some v → v.isEmpty = false →
          d.get "date" = some (Val.str v)))) := by
  refine ⟨?_, ?_, ?_, ?_, ?_, ?_⟩
  · intro sec tea
    simp only [list_materials, mem_get_documents, matchesFilter_append,
      Bool.and_eq_true, optFilt_matches, and_assoc]
  · intro role approved
    simp only [list_users, mem_get_documents, matchesFilter_append,
      Bool.and_eq_true, optFilt_matches, boolFilt_matches, and_assoc]
  · intro lid
    simp only [list_sections, mem_get_documents, optFilt_matches]
  · intro au lid sid
    simp only [list_announcements, mem_get_documents, matchesFilter_append,
      Bool.and_eq_true, optFilt_matches, and_assoc]
  · intro st
    simp only [list_bookings, mem_get_documents, optFilt_matches]
  · intro sid stid dt
    simp only [list_attendance, mem_get_documents, matchesFilter_append,
      Bool.and_eq_true, optFilt_matches, and_assoc]

/-- C4 witness: both parameters supplied and non-empty select the matching
material document. -/
theorem C4_witness :
    matDoc ∈ list_materials (some "s1") (some "t1") storeWithMaterial := by
  apply (((C4_list_filters_conjunctive storeWithMaterial matDoc).1
    (some "s1") (some "t1")).mpr)
  refine ⟨⟨matOid, by decide⟩, ?_, ?_⟩
  · intro v hv he
    cases Option.some.inj hv
    decide
  · intro v hv he
    cases Option.some.inj hv
    decide

/-- C9: a RoomBooking request body omitting `status` succeeds and is stored
with status "pending"; the schema likewise defaults `audience` to "all" for
Announcements, `approved` to `false` for Users, and `present` to `true` for
Attendance when those fields are omitted. -/
theorem C9_schema_defaults (s : Store) (room date st et rq t b fn em pw : String)
    (purpose tid : Option String) (r : Role) (sid dt stid : String) :
    (request_booking (bookingNoStatus room date st et purpose rq) s).1 =
      Except.ok ⟨natToHex24 s.nextId⟩ ∧
    (request_booking (bookingNoStatus room date st et purpose rq) s).2.getColl
        "roombooking" =
      s.getColl "roombooking" ++
        [(⟨natToHex24 s.nextId⟩, (bookingNoStatus room date st et purpose rq).toDoc)] ∧
    (bookingNoStatus room date st et purpose rq).toDoc.get "status" =
      some (Val.str "pending") ∧
    (bookingNoStatus room date st et purpose rq).status = BookingStatus.pending ∧
    (annNoAudience t b).audience = Audience.all ∧
    (userNoApproved fn em pw r).approved = false ∧
    (attendanceNoPresent sid tid dt stid).present = true := by
  refine ⟨rfl, getColl_create_self s "roombooking" _, ?_, rfl, rfl, rfl, rfl⟩
  simp [bookingNoStatus, RoomBooking.toDoc, Doc.get, BookingStatus.toStr]

/-- C7: every creation endpoint, on success, responds with exactly the
identifier of the newly inserted document as a string. -/
theorem C7_creation_responds_with_new_id (s : Store) :
    (∀ (u : User) (r : IDResponse), (register_user u s).1 = Except.ok r →
      r.id = natToHex24 s.nextId ∧
      (register_user u s).2.getColl "user" =
        s.getColl "user" ++ [(⟨r.id⟩, u.toDoc)]) ∧
    (∀ l : Level, (create_level l s).1 = Except.ok ⟨natToHex24 s.nextId⟩ ∧
      (create_level l s).2.getColl "level" =
        s.getColl "level" ++ [(⟨natToHex24 s.nextId⟩, l.toDoc)]) ∧
    (∀ (sec : Section) (r : IDResponse), (create_section sec s).1 = Except.ok r →
      r.id = natToHex24 s.nextId ∧
      (create_section sec s).2.getColl "section" =
        s.getColl "section" ++ [(⟨r.id⟩, sec.toDoc)]) ∧
    (∀ (e : TimetableEntry) (r : IDResponse), (add_timetable e s).1 = Except.ok r →
      r.id = natToHex24 s.nextId ∧
      (add_timetable e s).2.getColl "timetableentry" =
        s.getColl "timetableentry" ++ [(⟨r.id⟩, e.toDoc)]) ∧
    (∀ a : Announcement, (create_announcement a s).1 = Except.ok ⟨natToHex24 s.nextId⟩ ∧
      (create_announcement a s).2.getColl "announcement" =
        s.getColl "announcement" ++ [(⟨natToHex24 s.nextId⟩, a.toDoc)]) ∧
    (∀ m : Material, (upload_material m s).1 = Except.ok ⟨natToHex24 s.nextId⟩ ∧
      (upload_material m s).2.getColl "material" =
        s.getColl "material" ++ [(⟨natToHex24 s.nextId⟩, m.toDoc)]) ∧
    (∀ rb : RoomBooking, (request_booking rb s).1 = Except.ok ⟨natToHex24 s.nextId⟩ ∧
      (request_booking rb s).2.getColl "roombooking" =
        s.getColl "roombooking" ++ [(⟨natToHex24 s.nextId⟩, rb.toDoc)]) ∧
    (∀ a : Attendance, (mark_attendance a s).1 = Except.ok ⟨natToHex24 s.nextId⟩ ∧
      (mark_attendance a s).2.getColl "attendance" =
        s.getColl "attendance" ++ [(⟨natToHex24 s.nextId⟩, a.toDoc)]) := by
  refine ⟨?_, ?_, ?_, ?_, ?_, ?_, ?_, ?_⟩
  · intro u r h
    cases hfo : s.find_one "user" [("email", Val.str u.email)] with
    | some e =>
      rw [show (register_user u s).1 = Except.error AppError.duplicateEmail from by
        simp only [register_user, hfo]] at h
      exact Except.noConfusion h
    | none =>
      rw [show (register_user u s).1 = Except.ok ⟨natToHex24 s.nextId⟩ from by
        simp only [register_user, hfo, create_document_fst]] at h
      cases Except.ok.inj h
      refine ⟨rfl, ?_⟩
      rw [show (register_user u s).2 = (create_document s "user" u.toDoc).2 from by
        simp only [register_user, hfo]]
      exact getColl_create_self s "user" u.toDoc
  · exact fun l => ⟨rfl, getColl_create_self s "level" l.toDoc⟩
  · intro sec r h
    cases ho : _oid sec.level_id with
    | error e =>
      rw [show (create_section sec s).1 = Except.error e from by
        simp only [create_section, ho]] at h
      exact Except.noConfusion h
    | ok oid =>
      cases hl : s.findById "level" oid with
      | none =>
        rw [show (create_section sec s).1 =
            Except.error (AppError.referenceNotFound "Level") from by
          simp only [create_section, ho, hl]] at h
        exact Except.noConfusion h
      | some dl =>
        rw [show (create_section sec s).1 = Except.ok ⟨natToHex24 s.nextId⟩ from by
          simp only [create_section, ho, hl, create_document_fst]] at h
        cases Except.ok.inj h
        refine ⟨rfl, ?_⟩
        rw [show (create_section sec s).2 = (create_document s "section" sec.toDoc).2 from by
          simp only [create_section, ho, hl]]
        exact getColl_create_self s "section" sec.toDoc
  · intro e r h
    cases ho : _oid e.section_id with
    | error e' =>
      rw [show (add_timetable e s).1 = Except.error e' from by
        simp only [add_timetable, ho]] at h
      exact Except.noConfusion h
    | ok oid =>
      cases hl : s.findById "section" oid with
      | none =>
        rw [show (add_timetable e s).1 =
            Except.error (AppError.referenceNotFound "Section") from by
          simp only [add_timetable, ho, hl]] at h
        exact Except.noConfusion h
      | some dl =>
        rw [show (add_timetable e s).1 = Except.ok ⟨natToHex24 s.nextId⟩ from by
          simp only [add_timetable, ho, hl, create_document_fst]] at h
        cases Except.ok.inj h
        refine ⟨rfl, ?_⟩
        rw [show (add_timetable e s).2 =
            (create_document s "timetableentry" e.toDoc).2 from by
          simp only [add_timetable, ho, hl]]
        exact getColl_create_self s "timetableentry" e.toDoc
  · exact fun a => ⟨rfl, getColl_create_self s "announcement" a.toDoc⟩
  · exact fun m => ⟨rfl, getColl_create_self s "material" m.toDoc⟩
  · exact fun rb => ⟨rfl, getColl_create_self s "roombooking" rb.toDoc⟩
  · exact fun a => ⟨rfl, getColl_create_self s "attendance" a.toDoc⟩

/-- C7 witness: on the empty store, registering inserts the user document
under exactly the returned identifier. -/
theorem C7_witness :
    (register_user sampleUser1 emptyStore).2.getColl "user" =
      emptyStore.getColl "user" ++ [(⟨natToHex24 0⟩, sampleUser1.toDoc)] :=
  ((C7_creation_responds_with_new_id emptyStore).1 sampleUser1 ⟨natToHex24 0⟩
    (by decide)).2

/-- C8: every mutating handler performs at most one logical write to the
store, and whenever it terminates with an error the store is unchanged by the
request (each validation, identifier, duplicate-email, referential and
invalid-status failure occurs before the single write, and matched-count-zero
failures perform no write). -/
theorem C8_at_most_one_write (s : Store) :
    (∀ u : User, (isErr (register_user u s).1 = true → (register_user u s).2 = s) ∧
      AtMostOneWrite s (register_user u s).2) ∧
    (∀ uid ap, (isErr (approve_user uid ap s).1 = true → (approve_user uid ap s).2 = s) ∧
      AtMostOneWrite s (approve_user uid ap s).2) ∧
    (∀ l : Level, (isErr (create_level l s).1 = true → (create_level l s).2 = s) ∧
      AtMostOneWrite s (create_level l s).2) ∧
    (∀ sec : Section, (isErr (create_section sec s).1 = true →
      (create_section sec s).2 = s) ∧
      AtMostOneWrite s (create_section sec s).2) ∧
    (∀ uid sid, (isErr (assign_section uid sid s).1 = true →
      (assign_section uid sid s).2 = s) ∧
      AtMostOneWrite s (assign_section uid sid s).2) ∧
    (∀ e : TimetableEntry, (isErr (add_timetable e s).1 = true →
      (add_timetable e s).2 = s) ∧
      AtMostOneWrite s (add_timetable e s).2) ∧
    (∀ a : Announcement, (isErr (create_announcement a s).1 = true →
      (create_announcement a s).2 = s) ∧
      AtMostOneWrite s (create_announcement a s).2) ∧
    (∀ m : Material, (isErr (upload_material m s).1 = true →
      (upload_material m s).2 = s) ∧
      AtMostOneWrite s (upload_material m s).2) ∧
    (∀ rb : RoomBooking, (isErr (request_booking rb s).1 = true →
      (request_booking rb s).2 = s) ∧
      AtMostOneWrite s (request_booking rb s).2) ∧
    (∀ bid sv, (isErr (set_booking_status bid sv s).1 = true →
      (set_booking_status bid sv s).2 = s) ∧
      AtMostOneWrite s (set_booking_status bid sv s).2) ∧
    (∀ a : Attendance, (isErr (mark_attendance a s).1 = true →
      (mark_attendance a s).2 = s) ∧
      AtMostOneWrite s (mark_attendance a s).2) := by
  refine ⟨?_, ?_, ?_, ?_, ?_, ?_, ?_, ?_, ?_, ?_, ?_⟩
  · intro u
    cases hfo : s.find_one "user" [("email", Val.str u.email)] with
    | some e =>
      constructor
      · intro _
        simp only [register_user, hfo]
      · exact Or.inl (by simp only [register_user, hfo])
    | none =>
      constructor
      · intro h
        rw [show (register_user u s).1 =
            Except.ok ⟨(create_document s "user" u.toDoc).1⟩ from by
          simp only [register_user, hfo]] at h
        exact Bool.noConfusion h
      · exact Or.inr (Or.inl ⟨"user", u.toDoc, by simp only [register_user, hfo]⟩)
  · intro uid ap
    cases ho : _oid uid with
    | error e =>
      constructor
      · intro _
        simp only [approve_user, ho]
      · exact Or.inl (by simp only [approve_user, ho])
    | ok oid =>
      have hp := patch_step s "user" oid "approved" (Val.bool ap) AppError.userNotFound
      constructor
      · intro h
        simp only [approve_user, ho] at h ⊢
        exact hp.1 h
      · simp only [approve_user, ho]
        exact hp.2
  · exact fun l =>
      ⟨fun h => Bool.noConfusion h, Or.inr (Or.inl ⟨"level", l.toDoc, rfl⟩)⟩
  · intro sec
    cases ho : _oid sec.level_id with
    | error e =>
      constructor
      · intro _
        simp only [create_section, ho]
      · exact Or.inl (by simp only [create_section, ho])
    | ok oid =>
      cases hl : s.findById "level" oid with
      | none =>
        constructor
        · intro _
          simp only [create_section, ho, hl]
        · exact Or.inl (by simp only [create_section, ho, hl])
      | some dl =>
        constructor
        · intro h
          rw [show (create_section sec s).1 =
              Except.ok ⟨(create_document s "section" sec.toDoc).1⟩ from by
            simp only [create_section, ho, hl]] at h
          exact Bool.noConfusion h
        · exact Or.inr (Or.inl ⟨"section", sec.toDoc, by
            simp only [create_section, ho, hl]⟩)
  · intro uid sid
    cases ho : _oid sid with
    | error e =>
      constructor
      · intro _
        simp only [assign_section, ho]
      · exact Or.inl (by simp only [assign_section, ho])
    | ok soid =>
      cases hl : s.findById "section" soid with
      | none =>
        constructor
        · intro _
          simp only [assign_section, ho, hl]
        · exact Or.inl (by simp only [assign_section, ho, hl])
      | some dl =>
        cases hu : _oid uid with
        | error e =>
          constructor
          · intro _
            simp only [assign_section, ho, hl, hu]
          · exact Or.inl (by simp only [assign_section, ho, hl, hu])
        | ok uoid =>
          have hp := patch_step s "user" uoid "section_id" (Val.str sid)
            AppError.userNotFound
          constructor
          · intro h
            simp only [assign_section, ho, hl, hu] at h ⊢
            exact hp.1 h
          · simp only [assign_section, ho, hl, hu]
            exact hp.2
  · intro e
    cases ho : _oid e.section_id with
    | error e' =>
      constructor
      · intro _
        simp only [add_timetable, ho]
      · exact Or.inl (by simp only [add_timetable, ho])
    | ok oid =>
      cases hl : s.findById "section" oid with
      | none =>
        constructor
        · intro _
          simp only [add_timetable, ho, hl]
        · exact Or.inl (by simp only [add_timetable, ho, hl])
      | some dl =>
        constructor
        · intro h
          rw [show (add_timetable e s).1 =
              Except.ok ⟨(create_document s "timetableentry" e.toDoc).1⟩ from by
            simp only [add_timetable, ho, hl]] at h
          exact Bool.noConfusion h
        · exact Or.inr (Or.inl ⟨"timetableentry", e.toDoc, by
            simp only [add_timetable, ho, hl]⟩)
  · exact fun a =>
      ⟨fun h => Bool.noConfusion h, Or.inr (Or.inl ⟨"announcement", a.toDoc, rfl⟩)⟩
  · exact fun m =>
      ⟨fun h => Bool.noConfusion h, Or.inr (Or.inl ⟨"material", m.toDoc, rfl⟩)⟩
  · exact fun rb =>
      ⟨fun h => Bool.noConfusion h, Or.inr (Or.inl ⟨"roombooking", rb.toDoc, rfl⟩)⟩
  · intro bid sv
    cases hcv : allowedStatuses.contains sv with
    | false =>
      have hres : set_booking_status bid sv s =
          (Except.error AppError.invalidStatus, s) := by
        unfold set_booking_status
        rw [hcv]
        exact if_pos rfl
      constructor
      · intro _
        rw [hres]
      · exact Or.inl (by rw [hres])
    | true =>
      cases ho : _oid bid with
      | error e =>
        have hres : set_booking_status bid sv s = (Except.error e, s) := by
          unfold set_booking_status
          rw [hcv, ho]
          exact if_neg (by decide)
        constructor
        · intro _
          rw [hres]
        · exact Or.inl (by rw [hres])
      | ok oid =>
        have hres : set_booking_status bid sv s =
            patchResult (s.update_one "roombooking" oid "status" (Val.str sv))
              AppError.bookingNotFound := by
          unfold set_booking_status
          rw [hcv, ho]
          exact if_neg (by decide)
        have hp := patch_step s "roombooking" oid "status" (Val.str sv)
          AppError.bookingNotFound
        constructor
        · intro h
          rw [hres] at h ⊢
          exact hp.1 h
        · rw [hres]
          exact hp.2
  · exact fun a =>
      ⟨fun h => Bool.noConfusion h, Or.inr (Or.inl ⟨"attendance", a.toDoc, rfl⟩)⟩

/-- C8 witness: a duplicate-email failure leaves the store unchanged, and a
successful registration is a single write. -/
theorem C8_witness :
    (register_user sampleUser2 (register_user sampleUser1 emptyStore).2).2 =
      (register_user sampleUser1 emptyStore).2 ∧
    AtMostOneWrite emptyStore (register_user sampleUser1 emptyStore).2 := by
  constructor
  · exact ((C8_at_most_one_write ((register_user sampleUser1 emptyStore).2)).1
      sampleUser2).1 (by decide)
  · exact ((C8_at_most_one_write emptyStore).1 sampleUser1).2

end EEDept
